import Mathlib

/-!
Verification development for the decentralized-media-integrity backend:
a shallow embedding of the trust-weighted community-consensus core
(`community_verification_service.py`, `user_service.py`, `metta_service.py`,
`database/crud.py`), with theorems settling the specified properties.

Python numeric values (floats used for weights, ratios and confidence
scores) are embedded as exact rationals; Python ints as `Int`/`Nat`.
Fallible code is embedded with `Except`; the stateful knowledge base is
embedded by explicit state passing.
-/

namespace NewsIntegrity

/-! ## Data model

`User` mirrors the fields of `app.database.models.User` that the consensus
core reads; `EventRec` likewise for `Event`. -/

structure UserRec where
  id : String
  trust_score : ℤ
  deriving Repr, DecidableEq

structure EventRec where
  id : String
  user_id : String
  deriving Repr, DecidableEq

/-- One stored community-verification record, as built in
`submit_verification` (community_verification_service.py lines 66-76) and
read back by `_get_event_verifications`.  Only the fields the consensus
calculator reads are embedded. -/
structure Submission where
  event_id : String
  verifier_id : String
  verification_result : Bool
  verifier_weight : ℚ
  deriving Repr, DecidableEq

/-! ## Consensus calculator (`get_consensus_status`, lines 145-186)

The Python method recomputes, on every call, the totals over the list
`_get_event_verifications` hands it:
  `total_weight    = sum(v.verifier_weight for v in verifications)`
  `positive_weight = sum(v.verifier_weight for v in verifications if v.verification_result)`
  `consensus_ratio = positive_weight / total_weight if total_weight > 0 else 0`
  `consensus_reached = consensus_ratio >= 0.7 and total_verifications >= 3`.
The definitions here embed that computation (lines 155-177) over an
arbitrary submission list, in exact arithmetic.  Two aspects of the real
method are embedded separately further below: the read path that produces
the submission list (`_get_event_verifications` always returns `[]`
because `crud.get_atoms_by_event` does not exist — see the crud-module
section), and the IEEE-754 binary64 arithmetic the sums and the division
actually execute in (see the binary64 section). -/

def totalWeight (vs : List Submission) : ℚ :=
  (vs.map (·.verifier_weight)).sum

def positiveWeight (vs : List Submission) : ℚ :=
  ((vs.filter (·.verification_result)).map (·.verifier_weight)).sum

/-- Result dictionary of `get_consensus_status` (the numeric and boolean
fields; the echoed constants `required_consensus = 0.7` and
`minimum_verifications = 3` are inlined where used). -/
structure ConsensusStatus where
  consensus_reached : Bool
  consensus_ratio : ℚ
  total_verifications : ℕ
  positive_verifications : ℕ
  negative_verifications : ℕ
  total_weight : ℚ
  positive_weight : ℚ
  final_result : String
  deriving Repr, DecidableEq

/-- `get_consensus_status` for one event, applied to the list of stored
verification records for that event (community_verification_service.py,
lines 145-178). -/
def get_consensus_status (vs : List Submission) : ConsensusStatus :=
  let total_verifications := vs.length
  let positive_verifications := (vs.filter (·.verification_result)).length
  let tw := totalWeight vs
  let pw := positiveWeight vs
  let ratio : ℚ := if tw > 0 then pw / tw else 0
  let reached : Bool := decide (ratio ≥ 7/10) && decide (total_verifications ≥ 3)
  { consensus_reached := reached
    consensus_ratio := ratio
    total_verifications := total_verifications
    positive_verifications := positive_verifications
    negative_verifications := total_verifications - positive_verifications
    total_weight := tw
    positive_weight := pw
    final_result := if reached && decide (ratio ≥ 7/10) then "verified" else "pending" }

/-! Helper lemmas about the consensus totals. -/

theorem totalWeight_pos (vs : List Submission)
    (hpos : ∀ s ∈ vs, 0 < s.verifier_weight) (hne : vs ≠ []) :
    0 < totalWeight vs := by
  apply List.sum_pos
  · intro w hw
    rcases List.mem_map.mp hw with ⟨s, hs, rfl⟩
    exact hpos s hs
  · simpa using hne

theorem totalWeight_perm {vs ws : List Submission} (h : vs.Perm ws) :
    totalWeight vs = totalWeight ws := by
  unfold totalWeight
  exact (h.map (·.verifier_weight)).sum_eq

theorem positiveWeight_perm {vs ws : List Submission} (h : vs.Perm ws) :
    positiveWeight vs = positiveWeight ws := by
  unfold positiveWeight
  exact ((h.filter (·.verification_result)).map (·.verifier_weight)).sum_eq

/-- The in-code consensus computation (lines 155-177), applied to a
submission list, reports `consensus_reached = true` iff the list has at
least 3 entries and its weighted approval ratio is at least 0.7 — this is
the rule the claimed contract describes, but the service feeds the
computation an always-empty list (see `consensus_status_always_unreached`
below).  The positivity hypothesis holds of every weight the service
produces (`_get_verifier_weight` only returns 0.5, 1.0, 1.2, 1.5, 2.0). -/
theorem consensus_reached_iff (vs : List Submission)
    (hpos : ∀ s ∈ vs, 0 < s.verifier_weight) :
    (get_consensus_status vs).consensus_reached = true ↔
      3 ≤ vs.length ∧ 7/10 ≤ positiveWeight vs / totalWeight vs := by
  constructor
  · intro h
    simp only [get_consensus_status, Bool.and_eq_true, decide_eq_true_eq] at h
    obtain ⟨hratio, hcount⟩ := h
    refine ⟨hcount, ?_⟩
    by_cases htw : totalWeight vs > 0
    · simpa [htw] using hratio
    · exfalso
      have hne : vs ≠ [] := by
        intro hnil; rw [hnil] at hcount; simp at hcount
      exact htw (totalWeight_pos vs hpos hne)
  · rintro ⟨hcount, hratio⟩
    have hne : vs ≠ [] := by
      intro hnil; rw [hnil] at hcount; simp at hcount
    have htw : totalWeight vs > 0 := totalWeight_pos vs hpos hne
    simp only [get_consensus_status, Bool.and_eq_true, decide_eq_true_eq]
    exact ⟨by simpa [htw] using hratio, hcount⟩

/-- Concrete instantiation of `consensus_reached_iff`: three approving
submissions of weight 1 reach consensus in the in-code computation. -/
theorem consensus_reached_iff_witness :
    (get_consensus_status
        [⟨"e1", "v1", true, 1⟩, ⟨"e1", "v2", true, 1⟩, ⟨"e1", "v3", true, 1⟩]
      ).consensus_reached = true ↔
      3 ≤ ([⟨"e1", "v1", true, 1⟩, ⟨"e1", "v2", true, 1⟩,
            ⟨"e1", "v3", true, 1⟩] : List Submission).length ∧
      7/10 ≤ positiveWeight [⟨"e1", "v1", true, 1⟩, ⟨"e1", "v2", true, 1⟩,
            ⟨"e1", "v3", true, 1⟩] /
          totalWeight [⟨"e1", "v1", true, 1⟩, ⟨"e1", "v2", true, 1⟩,
            ⟨"e1", "v3", true, 1⟩] :=
  consensus_reached_iff _ (by decide)

/-- In exact arithmetic the consensus ratio of the in-code computation is
invariant under any permutation of an identical multiset of submissions —
the reproducibility the recompute-from-scratch design intends.  The
binary64 arithmetic the code actually executes in violates this exact
invariance: see `consensus_ratio_float_order_dependent` below. -/
theorem consensus_ratio_perm_invariant (vs ws : List Submission)
    (h : vs.Perm ws) :
    (get_consensus_status vs).consensus_ratio =
      (get_consensus_status ws).consensus_ratio := by
  simp only [get_consensus_status]
  rw [totalWeight_perm h, positiveWeight_perm h]

/-- Concrete instantiation of `consensus_ratio_perm_invariant` at a swap
of two submissions. -/
theorem consensus_ratio_perm_invariant_witness :
    (get_consensus_status
        [⟨"e1", "v1", true, 2⟩, ⟨"e1", "v2", false, 1/2⟩]).consensus_ratio =
      (get_consensus_status
        [⟨"e1", "v2", false, 1/2⟩, ⟨"e1", "v1", true, 2⟩]).consensus_ratio :=
  consensus_ratio_perm_invariant _ _ (List.Perm.swap _ _ _)

/-! ## Verifier weight (`_get_verifier_weight`, lines 266-295)

The Python method first queries the MeTTa identity space for a
`(verifier-weight ...)` atom and returns the default `1.0` whenever that
query yields any result; otherwise it derives the weight from the looked-up
user's trust score by the tier chain below, and returns `1.0` when the user
lookup fails. -/

def weightFromTrust (trust_score : ℤ) : ℚ :=
  if trust_score ≥ 90 then 2
  else if trust_score ≥ 80 then 3/2
  else if trust_score ≥ 70 then 6/5
  else if trust_score ≥ 60 then 1
  else 1/2

def get_verifier_weight (weight_query_result : List String)
    (user : Option UserRec) : ℚ :=
  if weight_query_result ≠ [] then 1
  else
    match user with
    | some u => weightFromTrust u.trust_score
    | none => 1

/-- C3: the consensus weight `_get_verifier_weight` derives from a
verifier's trust score follows the tier table `≥90 → 2.0, ≥80 → 1.5,
≥70 → 1.2, ≥60 → 1.0, else → 0.5` (first matching tier wins), whenever the
weight is in fact derived from the trust score, i.e. the MeTTa weight query
is empty and the user lookup succeeds. -/
theorem verifier_weight_tiers (u : UserRec)
    (wq : List String) (hq : wq = []) :
    (90 ≤ u.trust_score → get_verifier_weight wq (some u) = 2) ∧
    (80 ≤ u.trust_score → u.trust_score < 90 →
      get_verifier_weight wq (some u) = 3/2) ∧
    (70 ≤ u.trust_score → u.trust_score < 80 →
      get_verifier_weight wq (some u) = 6/5) ∧
    (60 ≤ u.trust_score → u.trust_score < 70 →
      get_verifier_weight wq (some u) = 1) ∧
    (u.trust_score < 60 → get_verifier_weight wq (some u) = 1/2) := by
  subst hq
  simp only [get_verifier_weight, weightFromTrust, ne_eq, not_true_eq_false,
    if_false, reduceIte]
  refine ⟨?_, ?_, ?_, ?_, ?_⟩ <;> intros <;>
    split_ifs <;> first | (exfalso; omega) | norm_num

/-- Witness for C3: a trust score of 85 (tier `≥80`, below 90) yields
weight 1.5, instantiating the theorem at a concrete user. -/
theorem verifier_weight_tiers_witness :
    (90 ≤ (UserRec.mk "u1" 85).trust_score →
      get_verifier_weight [] (some (UserRec.mk "u1" 85)) = 2) ∧
    (80 ≤ (UserRec.mk "u1" 85).trust_score →
      (UserRec.mk "u1" 85).trust_score < 90 →
      get_verifier_weight [] (some (UserRec.mk "u1" 85)) = 3/2) ∧
    (70 ≤ (UserRec.mk "u1" 85).trust_score →
      (UserRec.mk "u1" 85).trust_score < 80 →
      get_verifier_weight [] (some (UserRec.mk "u1" 85)) = 6/5) ∧
    (60 ≤ (UserRec.mk "u1" 85).trust_score →
      (UserRec.mk "u1" 85).trust_score < 70 →
      get_verifier_weight [] (some (UserRec.mk "u1" 85)) = 1) ∧
    ((UserRec.mk "u1" 85).trust_score < 60 →
      get_verifier_weight [] (some (UserRec.mk "u1" 85)) = 1/2) :=
  verifier_weight_tiers (UserRec.mk "u1" 85) [] rfl

/-! ## Trust score update (`UserService.update_trust_score`, lines 110-124)

`new_score = max(0, min(100, user.trust_score + delta))`.  The clamped
value is then handed to `crud.update_user_trust_score` for persistence
(see the crud-module embedding below for what that call does). -/

def update_trust_score_new_score (trust_score delta : ℤ) : ℤ :=
  max 0 (min 100 (trust_score + delta))

/-- C2: for every current score and every integer delta, the score computed
by `update_trust_score` (and handed to persistence) lies in `[0, 100]`;
at the boundaries, score 0 with delta −5 yields 0 and score 100 with
delta +5 yields 100. -/
theorem update_trust_score_clamped :
    (∀ s d : ℤ, 0 ≤ update_trust_score_new_score s d ∧
      update_trust_score_new_score s d ≤ 100) ∧
    update_trust_score_new_score 0 (-5) = 0 ∧
    update_trust_score_new_score 100 5 = 100 := by
  refine ⟨fun s d => ?_, by decide, by decide⟩
  unfold update_trust_score_new_score
  omega

/-! ## Reporter feedback (`process_verification_feedback`, lines 197-213)

`delta = int(2 * consensus_score)` when the event was verified and
`delta = int(-3 * consensus_score)` otherwise; Python's `int()` on a float
truncates toward zero. The delta is then applied through
`update_trust_score`, so the resulting score is the clamped
`max(0, min(100, score + delta))`. -/

def availability_score (recent_verifications : ℕ) : ℤ :=
  max 0 (10 - (recent_verifications : ℤ))

def selection_scores (lookup : String → Option UserRec)
    (recent : String → ℕ) (eligible : List String) : List (String × ℤ) :=
  eligible.filterMap fun vid =>
    (lookup vid).map fun u =>
      (vid, u.trust_score + availability_score (recent vid))

def insertDesc (x : String × ℤ) : List (String × ℤ) → List (String × ℤ)
  | [] => [x]
  | y :: ys => if y.2 ≤ x.2 then x :: y :: ys else y :: insertDesc x ys

def sortDesc (xs : List (String × ℤ)) : List (String × ℤ) :=
  xs.foldr insertDesc []

def select_best_verifiers (lookup : String → Option UserRec)
    (recent : String → ℕ) (eligible : List String) (max_count : ℕ) :
    List String :=
  ((sortDesc (selection_scores lookup recent eligible)).take max_count).map
    Prod.fst

/-! Structural lemmas about the embedded stable sort. -/

theorem insertDesc_perm (x : String × ℤ) (l : List (String × ℤ)) :
    (insertDesc x l).Perm (x :: l) := by
  induction l with
  | nil => simp [insertDesc]
  | cons y ys ih =>
    unfold insertDesc
    split
    · exact List.Perm.refl _
    · exact (ih.cons y).trans (List.Perm.swap x y ys)

theorem sortDesc_perm (xs : List (String × ℤ)) : (sortDesc xs).Perm xs := by
  induction xs with
  | nil => simp [sortDesc]
  | cons x xs ih => exact (insertDesc_perm x (sortDesc xs)).trans (ih.cons x)

theorem select_best_verifiers_mem {lookup : String → Option UserRec}
    {recent : String → ℕ} {eligible : List String} {k : ℕ} {x : String}
    (hx : x ∈ select_best_verifiers lookup recent eligible k) :
    x ∈ eligible := by
  unfold select_best_verifiers at hx
  rcases List.mem_map.mp hx with ⟨p, hp, rfl⟩
  have hp2 : p ∈ sortDesc (selection_scores lookup recent eligible) :=
    List.mem_of_mem_take hp
  have hp3 : p ∈ selection_scores lookup recent eligible :=
    (sortDesc_perm _).mem_iff.mp hp2
  rcases List.mem_filterMap.mp hp3 with ⟨vid, hvid, heq⟩
  rcases Option.map_eq_some'.mp heq with ⟨u, _, rfl⟩
  exact hvid

/-! ## Verifier assignment (`assign_verifiers`, lines 23-43)

The regional-radius filter is a no-op (`_get_regional_users` returns the
whole roster); the loop skips the event's reporter
(`user.id == event.user_id`), keeps users the MeTTa eligibility check
accepts (that check lives in the repository's `.metta` rule files, absent
from `src/`, and is embedded as an oracle parameter), and hands the
surviving ids to `_select_best_verifiers`. -/

def assign_verifiers (event : EventRec) (all_users : List UserRec)
    (eligibleOracle : String → Bool) (lookup : String → Option UserRec)
    (recent : String → ℕ) (max_verifiers : ℕ) : List String :=
  let eligible :=
    (all_users.filter
      (fun u => !(u.id == event.user_id) && eligibleOracle u.id)).map (·.id)
  select_best_verifiers lookup recent eligible max_verifiers

/-- C8: for every event and every roster, eligibility oracle, lookup and
workload history, the list returned by `assign_verifiers` never contains
the event's reporter. -/
theorem assign_verifiers_excludes_reporter (event : EventRec)
    (all_users : List UserRec) (eligibleOracle : String → Bool)
    (lookup : String → Option UserRec) (recent : String → ℕ)
    (max_verifiers : ℕ) :
    event.user_id ∉
      assign_verifiers event all_users eligibleOracle lookup recent
        max_verifiers := by
  intro hmem
  unfold assign_verifiers at hmem
  have helig := select_best_verifiers_mem hmem
  rcases List.mem_map.mp helig with ⟨u, hu, huid⟩
  rcases List.mem_filter.mp hu with ⟨_, hcond⟩
  rw [Bool.and_eq_true, Bool.not_eq_true', beq_eq_false_iff_ne] at hcond
  exact hcond.1 huid

/-! ## Submission (`submit_verification`, lines 45-110)

The Python method (1) asks the MeTTa rule `community-verify` whether the
verifier is eligible — that rule lives in the repository's `.metta` files,
which are absent from `src/`, so eligibility is embedded as a boolean
parameter; (2) on ineligibility returns
`{success: False, error: "Verifier not eligible for this event"}`;
(3) otherwise unconditionally builds a fresh record (new uuid) and appends
it to the store — there is no lookup of existing submissions by the same
verifier and no `AlreadyVotedError` anywhere in the repository; (4) runs
`_check_consensus` (lines 315-340: at least 3 stored verifications for the
event and the MeTTa consensus rule, also absent from `src/` and embedded
as a boolean parameter, reports verified). -/

def crud_module_functions : List String :=
  ["create_event", "get_events_by_region", "update_event_verification",
   "get_events_by_user", "get_user_by_id", "get_event_by_id",
   "get_all_atoms", "create_atom"]

def crud_defines (name : String) : Bool := crud_module_functions.contains name

/-- Persisted state the trust-feedback code could touch: the user table's
trust scores and the MeTTa identity-space atoms. -/
structure PersistState where
  trust_scores : String → ℤ
  identity_atoms : List String

def crud_update_user_trust_score (st : PersistState) (user_id : String)
    (value : ℤ) : Except String PersistState :=
  if crud_defines "update_user_trust_score" then
    .ok { st with trust_scores :=
      fun u => if u = user_id then value else st.trust_scores u }
  else
    .error "AttributeError: module app.database.crud has no attribute update_user_trust_score"

/-- `_update_verifier_trust_score`
(community_verification_service.py, lines 342-359): on reached consensus it
computes `delta = +3` if the submission agreed with the consensus outcome
and `-2` otherwise, calls `crud.update_user_trust_score`, then appends a
`trust-score-update` atom; the whole body is wrapped in
`try/except Exception`, so any raised error leaves the state as it was. -/
def update_verifier_trust_score (st : PersistState) (verifier_id : String)
    (verification_result : Bool) (consensus_reached : Bool)
    (consensus_result : String) : PersistState :=
  if consensus_reached then
    let consensus_verified := consensus_result == "verified"
    let was_correct := verification_result == consensus_verified
    let delta : ℤ := if was_correct then 3 else -2
    match crud_update_user_trust_score st verifier_id delta with
    | .ok st1 =>
      { st1 with identity_atoms := st1.identity_atoms ++
          [s!"(trust-score-update {verifier_id} {delta} \"verification-feedback\")"] }
    | .error _ => st
  else st

/-- `UserService.update_trust_score` (user_service.py, lines 110-124): no
surrounding `try/except`, so the `AttributeError` from the missing crud
function propagates to the caller. -/
def userservice_update_trust_score (st : PersistState)
    (user : Option UserRec) (user_id : String) (delta : ℤ) :
    Except String (Bool × PersistState) :=
  match user with
  | none => .ok (false, st)
  | some u =>
    let new_score := update_trust_score_new_score u.trust_score delta
    match crud_update_user_trust_score st user_id new_score with
    | .ok st1 => .ok (true, st1)
    | .error e => .error e

/-- C10: the crud module does not define `update_user_trust_score`, so (a)
`_update_verifier_trust_score` — whose body is wrapped in a swallowing
`try/except` — returns with every persisted trust score and identity atom
unchanged, for every input; and (b) `UserService.update_trust_score` can
never persist its clamped score: whenever the user lookup succeeds it
propagates the `AttributeError` instead of returning. -/
theorem trust_feedback_never_persists :
    crud_defines "update_user_trust_score" = false ∧
    (∀ (st : PersistState) (vid : String) (vr cr : Bool) (res : String),
      update_verifier_trust_score st vid vr cr res = st) ∧
    (∀ (st : PersistState) (u : UserRec) (uid : String) (d : ℤ),
      userservice_update_trust_score st (some u) uid d =
        .error "AttributeError: module app.database.crud has no attribute update_user_trust_score") := by
  refine ⟨by decide, fun st vid vr cr res => ?_, fun st u uid d => rfl⟩
  cases cr <;> rfl

/-! ## Service read paths through the crud module

The consensus and selection paths read persisted data through two further
crud attributes the module does not define: `get_atoms_by_event`
(`_get_event_verifications`, lines 361-374) and `get_all_users`
(`_select_best_verifiers` line 248, `_get_regional_users` line 232).
Their embeddings below model the attribute access exactly as
`crud_update_user_trust_score` above: the store the function would read is
a parameter, and the access fails when the name is not among
`crud_module_functions`. -/

inductive Atom
  | evidence_link (news : String) (url : String)
  | gps_coords (news : String) (lat lon : ℚ)
  | time_stamp (news : String) (t : String)
  | trust_score (user : String) (score : ℤ)
  | verified (news : String)
  | other (content : String)
  deriving Repr, DecidableEq

structure KnowledgeBase where
  event_space : List Atom
  trust_space : List Atom
  deriving Repr, DecidableEq

/-- `add_atom(atom, "event")`: hyperon `add-atom` appends to the space. -/
def add_atom_event (kb : KnowledgeBase) (a : Atom) : KnowledgeBase :=
  { kb with event_space := kb.event_space ++ [a] }

/-- `(evidence-link <event> $link)` query is non-empty. -/
def hasEvidence (kb : KnowledgeBase) (news : String) : Bool :=
  kb.event_space.any fun a =>
    match a with
    | .evidence_link n _ => n == news
    | _ => false

/-- `(gps-coords <event> $coords)` query is non-empty. -/
def hasGps (kb : KnowledgeBase) (news : String) : Bool :=
  kb.event_space.any fun a =>
    match a with
    | .gps_coords n _ _ => n == news
    | _ => false

/-- `(timestamp <event> $time)` query is non-empty. -/
def hasTimestamp (kb : KnowledgeBase) (news : String) : Bool :=
  kb.event_space.any fun a =>
    match a with
    | .time_stamp n _ => n == news
    | _ => false

/-- First `(trust-score <user> $score)` binding in the trust space (the
Python reasoning loop takes the first parseable result and breaks). -/
def firstTrustScore (kb : KnowledgeBase) (user : String) : Option ℤ :=
  kb.trust_space.findSome? fun a =>
    match a with
    | .trust_score u s => if u == user then some s else none
    | _ => none

/-- Modelled from the spec: the `auto-verify` rule of §4.2, which lives in
the repository's `.metta` rule files (absent from `src/`): true iff an
evidence reference fact, a coordinate fact and a timestamp fact exist for
the event, the reporter's trust score fact is ≥ 60, and both caller-supplied
confidence scores clear the configured minimum bar `minConfidence`. -/
def autoVerify (minConfidence : ℤ) (kb : KnowledgeBase)
    (event_id user_id : String) (image_confidence desc_confidence : ℤ) :
    Bool :=
  hasEvidence kb event_id && hasGps kb event_id && hasTimestamp kb event_id
    && (match firstTrustScore kb user_id with
        | some s => decide (60 ≤ s)
        | none => false)
    && decide (minConfidence ≤ image_confidence)
    && decide (minConfidence ≤ desc_confidence)

/-- Modelled from the spec: the `high-trust-verify` fallback of §4.2, also
absent from `src/`; its bar is an explicit configuration parameter
(`highTrustBar`), exceeded strictly. -/
def highTrustVerify (highTrustBar : ℤ) (kb : KnowledgeBase)
    (user_id : String) : Bool :=
  match firstTrustScore kb user_id with
  | some s => decide (highTrustBar < s)
  | none => false

/-- `_get_verification_reasoning` (lines 334-399): one line per
sub-condition, built from the same queries. -/
def verification_reasoning (kb : KnowledgeBase) (event_id user_id : String) :
    List String :=
  (match firstTrustScore kb user_id with
   | some score =>
     [s!"User trust score: {score}"] ++
       (if 60 ≤ score then ["✅ Trust score meets minimum threshold (60)"]
        else ["❌ Trust score below minimum threshold (60)"])
   | none => ["User trust score: unknown"]) ++
  [if hasEvidence kb event_id then "✅ Photo evidence provided"
   else "❌ No photo evidence found"] ++
  [if hasGps kb event_id then "✅ GPS coordinates available"
   else "❌ No GPS coordinates found"] ++
  [if hasTimestamp kb event_id then "✅ Event timestamp recorded"
   else "❌ No timestamp found"]

structure VerifyResult where
  verified : Bool
  reasoning : List String
  deriving Repr, DecidableEq

/-- `run_verification` (lines 269-332): evaluate `auto-verify`; on success
add `(verified <event>)` to the event space; otherwise fall back to
`high-trust-verify`; finally build the reasoning from the current state. -/
def run_verification (minConfidence highTrustBar : ℤ) (kb : KnowledgeBase)
    (event_id user_id : String) (image_confidence desc_confidence : ℤ) :
    VerifyResult × KnowledgeBase :=
  let auto := autoVerify minConfidence kb event_id user_id image_confidence
    desc_confidence
  let kb1 := if auto then add_atom_event kb (Atom.verified event_id) else kb
  let is_verified := if auto then true
    else highTrustVerify highTrustBar kb1 user_id
  ({ verified := is_verified,
     reasoning := verification_reasoning kb1 event_id user_id }, kb1)

/-- Number of stored copies of `(verified <event>)` in the event space. -/
def verifiedCount (kb : KnowledgeBase) (event_id : String) : ℕ :=
  (kb.event_space.filter fun a => decide (a = Atom.verified event_id)).length

/-! The evaluator's observations are invariant under appending a
`(verified _)` atom: existence checks match on other predicates, and the
trust space is untouched. -/

theorem queries_insert_verified (kb : KnowledgeBase) (e n u : String) :
    hasEvidence (add_atom_event kb (Atom.verified e)) n = hasEvidence kb n ∧
    hasGps (add_atom_event kb (Atom.verified e)) n = hasGps kb n ∧
    hasTimestamp (add_atom_event kb (Atom.verified e)) n
        = hasTimestamp kb n ∧
    firstTrustScore (add_atom_event kb (Atom.verified e)) u
        = firstTrustScore kb u := by
  refine ⟨?_, ?_, ?_, rfl⟩ <;>
    simp [hasEvidence, hasGps, hasTimestamp, add_atom_event, List.any_append]

theorem autoVerify_insert_verified (mc : ℤ) (kb : KnowledgeBase)
    (e' e u : String) (ic dc : ℤ) :
    autoVerify mc (add_atom_event kb (Atom.verified e')) e u ic dc =
      autoVerify mc kb e u ic dc := by
  have h := queries_insert_verified kb e' e u
  unfold autoVerify
  rw [h.1, h.2.1, h.2.2.1, h.2.2.2]

theorem reasoning_insert_verified (kb : KnowledgeBase) (e' e u : String) :
    verification_reasoning (add_atom_event kb (Atom.verified e')) e u =
      verification_reasoning kb e u := by
  have h := queries_insert_verified kb e' e u
  unfold verification_reasoning
  rw [h.1, h.2.1, h.2.2.1, h.2.2.2]

theorem verifiedCount_add (kb : KnowledgeBase) (e : String) :
    verifiedCount (add_atom_event kb (Atom.verified e)) e =
      verifiedCount kb e + 1 := by
  unfold verifiedCount add_atom_event
  simp [List.filter_append]

/-- Counterexample to C5 as stated: from a state holding evidence, gps,
timestamp and trust facts for event `e1` / reporter `r1`, a first `verify`
auto-verifies and stores one `(verified e1)` atom; the second identical
call stores a second copy (hyperon `add-atom` appends; the space is a
multiset), so the insertion is not a no-op on the stored facts. -/
theorem verify_rerun_duplicates_fact :
    verifiedCount
      (run_verification 50 90
        ⟨[Atom.evidence_link "e1" "u", Atom.gps_coords "e1" 1 2,
          Atom.time_stamp "e1" "t"], [Atom.trust_score "r1" 75]⟩
        "e1" "r1" 70 60).2 "e1" = 1 ∧
    verifiedCount
      (run_verification 50 90
        (run_verification 50 90
          ⟨[Atom.evidence_link "e1" "u", Atom.gps_coords "e1" 1 2,
            Atom.time_stamp "e1" "t"], [Atom.trust_score "r1" 75]⟩
          "e1" "r1" 70 60).2
        "e1" "r1" 70 60).2 "e1" = 2 ∧
    (2 : ℕ) ≠ 1 := by
  refine ⟨by decide, by decide, by decide⟩

/-- C5 (amended): calling `verify` a second time with identical inputs
after a successful auto-verify returns the same result (`verified` flag and
reasoning) as the first call, but appends a second copy of the
`(verified, event)` fact to the event space — the re-insertion is a no-op
only for the existence-style observations the evaluator itself makes, not
for the stored multiset. -/
theorem verify_rerun_same_result_amended (mc hb : ℤ) (kb : KnowledgeBase)
    (e u : String) (ic dc : ℤ)
    (hauto : autoVerify mc kb e u ic dc = true) :
    (run_verification mc hb kb e u ic dc).1.verified = true ∧
    (run_verification mc hb
        (run_verification mc hb kb e u ic dc).2 e u ic dc).1 =
      (run_verification mc hb kb e u ic dc).1 ∧
    verifiedCount
        (run_verification mc hb
          (run_verification mc hb kb e u ic dc).2 e u ic dc).2 e =
      verifiedCount (run_verification mc hb kb e u ic dc).2 e + 1 := by
  have h1 : run_verification mc hb kb e u ic dc =
      ({ verified := true,
         reasoning := verification_reasoning
           (add_atom_event kb (Atom.verified e)) e u },
        add_atom_event kb (Atom.verified e)) := by
    unfold run_verification
    rw [hauto]
    simp
  have hauto2 : autoVerify mc (add_atom_event kb (Atom.verified e)) e u ic dc
      = true := by
    rw [autoVerify_insert_verified]
    exact hauto
  have h2 : run_verification mc hb
      (add_atom_event kb (Atom.verified e)) e u ic dc =
      ({ verified := true,
         reasoning := verification_reasoning
           (add_atom_event (add_atom_event kb (Atom.verified e))
             (Atom.verified e)) e u },
        add_atom_event (add_atom_event kb (Atom.verified e))
          (Atom.verified e)) := by
    unfold run_verification
    rw [hauto2]
    simp
  rw [h1]
  rw [h2]
  refine ⟨rfl, ?_, ?_⟩
  · simp only [VerifyResult.mk.injEq, true_and]
    exact reasoning_insert_verified (add_atom_event kb (Atom.verified e)) e e u
  · exact verifiedCount_add _ e

/-- Witness for C5 (amended), instantiating the theorem at the concrete
state of the counterexample. -/
theorem verify_rerun_same_result_amended_witness :
    (run_verification 50 90
      ⟨[Atom.evidence_link "e1" "u", Atom.gps_coords "e1" 1 2,
        Atom.time_stamp "e1" "t"], [Atom.trust_score "r1" 75]⟩
      "e1" "r1" 70 60).1.verified = true ∧
    (run_verification 50 90
        (run_verification 50 90
          ⟨[Atom.evidence_link "e1" "u", Atom.gps_coords "e1" 1 2,
            Atom.time_stamp "e1" "t"], [Atom.trust_score "r1" 75]⟩
          "e1" "r1" 70 60).2 "e1" "r1" 70 60).1 =
      (run_verification 50 90
        ⟨[Atom.evidence_link "e1" "u", Atom.gps_coords "e1" 1 2,
          Atom.time_stamp "e1" "t"], [Atom.trust_score "r1" 75]⟩
        "e1" "r1" 70 60).1 ∧
    verifiedCount
        (run_verification 50 90
          (run_verification 50 90
            ⟨[Atom.evidence_link "e1" "u", Atom.gps_coords "e1" 1 2,
              Atom.time_stamp "e1" "t"], [Atom.trust_score "r1" 75]⟩
            "e1" "r1" 70 60).2 "e1" "r1" 70 60).2 "e1" =
      verifiedCount
        (run_verification 50 90
          ⟨[Atom.evidence_link "e1" "u", Atom.gps_coords "e1" 1 2,
            Atom.time_stamp "e1" "t"], [Atom.trust_score "r1" 75]⟩
          "e1" "r1" 70 60).2 "e1" + 1 :=
  verify_rerun_same_result_amended 50 90 _ "e1" "r1" 70 60 (by decide)

end NewsIntegrity
